import Mathlib

/-
Shallow embedding of the Win Tala storefront client (src/App.jsx).
Session store (AuthProvider), price formatter, view fetch effects and the
admin gate are translated into executable Lean definitions; network outcomes
are passed in explicitly as `Option`/`Except` values.
-/

namespace WinTala

/-- A user record as consumed from the auth API: identifier, display name,
email and admin flag. -/
structure User where
  id : Nat
  name : String
  email : String
  is_admin : Bool
deriving DecidableEq

/-- The session store state held by `AuthProvider`: the current user (or
absent) and the startup loading flag. -/
structure AuthState where
  user : Option User
  loading : Bool
deriving DecidableEq

/-- The payload returned by /auth/login and /auth/register: a user plus the
rest of the response body (`r.data` is returned whole to the caller). -/
structure AuthResponse where
  user : User
  token : String
deriving DecidableEq

/-- A JavaScript numeric-or-absent value as it reaches `formatPrice`:
`null`, `undefined`, or a number. `v == null` in JS is true exactly for
`null` and `undefined`. -/
inductive JSNum where
  | null
  | undefined
  | num (n : Nat)
deriving DecidableEq

/-- Decimal digits of `n`, least significant first, via explicit fuel
(`n + 1` always suffices). `digitsAux` mirrors repeated `n % 10` / `n / 10`. -/
def digitsAux : Nat → Nat → List Nat
  | 0, _ => []
  | fuel + 1, n => if n < 10 then [n] else n % 10 :: digitsAux fuel (n / 10)

/-- Decimal digits of `n`, least significant first. -/
def digitsLSF (n : Nat) : List Nat := digitsAux (n + 1) n

/-- Extended Arabic-Indic digit for `d` (0 ↦ ۰ = U+06F0, …, 9 ↦ ۹). This is
the digit set `Intl.NumberFormat` uses for the fa-IR locale. -/
def persianDigit (d : Nat) : Char := Char.ofNat (0x6F0 + d)

/-- The fa-IR locale group separator, U+066C ARABIC THOUSANDS SEPARATOR. -/
def thousandsSep : Char := Char.ofNat 0x66C

/-- Insert the fa-IR group separator after every third digit, walking the
least-significant-first digit characters; `k` counts digits emitted since
the last separator. -/
def groupAux : List Char → Nat → List Char
  | [], _ => []
  | c :: cs, k =>
    if k == 3 then thousandsSep :: c :: groupAux cs 1 else c :: groupAux cs (k + 1)

/-- `Intl.NumberFormat` with the fa-IR locale applied to a natural number:
extended Arabic-Indic digits grouped in threes by U+066C. -/
def faIRFormat (n : Nat) : String :=
  String.mk (groupAux ((digitsLSF n).map persianDigit) 0).reverse

/-- `formatPrice` from src/App.jsx line 159:
`if(v==null) return '—'; return new Intl.NumberFormat('fa-IR').format(v) + ' تومان'`. -/
def formatPrice : JSNum → String
  | JSNum.null => "—"
  | JSNum.undefined => "—"
  | JSNum.num n => faIRFormat n ++ " تومان"

/-! ## Session store (AuthProvider, src/App.jsx lines 18-42) -/

/-- The state AuthProvider starts with: `useState(null)` for the user and
`useState(true)` for the loading flag. -/
def initialState : AuthState := { user := none, loading := true }

/-- Final state of the startup session probe, src/App.jsx line 23:
`axios.get('/auth/me').then(r=>setUser(r.data)).catch(()=>\x7b\x7d).finally(()=>setLoading(false))`.
The probe outcome is `some u` when /auth/me resolved with user `u`, and
`none` when it failed in any way (the catch handler does nothing). -/
def probeSession (s : AuthState) : Option User → AuthState
  | some u => { s with user := some u, loading := false }
  | none => { s with loading := false }

/-- The successive store states observed while the session probe settles:
the state before, then after each `set` call that the resolved branch runs.
On success `setUser` fires, then `setLoading(false)`; on failure only the
`finally` handler's `setLoading(false)` fires. -/
def probeSessionStates (s : AuthState) : Option User → List AuthState
  | some u =>
    [s, { s with user := some u }, { s with user := some u, loading := false }]
  | none => [s, { s with loading := false }]

/-- Number of `true → false` transitions along a trace of flag values. -/
def countTrueToFalse : List Bool → Nat
  | true :: false :: rest => 1 + countTrueToFalse (false :: rest)
  | _ :: rest => countTrueToFalse rest
  | [] => 0

/-- `login` from src/App.jsx lines 26-30: await POST /auth/login; on
resolution store `r.data.user` and return `r.data`; on rejection the await
rethrows before `setUser`, leaving the state untouched. -/
def login (s : AuthState) : Except Unit AuthResponse → AuthState × Except Unit AuthResponse
  | Except.ok r => ({ s with user := some r.user }, Except.ok r)
  | Except.error e => (s, Except.error e)

/-- `register` from src/App.jsx lines 35-39: same shape as `login`, against
POST /auth/register. -/
def register (s : AuthState) : Except Unit AuthResponse → AuthState × Except Unit AuthResponse
  | Except.ok r => ({ s with user := some r.user }, Except.ok r)
  | Except.error e => (s, Except.error e)

/-- `logout` from src/App.jsx lines 31-34: `await axios.post('/auth/logout');
setUser(null)`. There is no catch: a rejected POST rethrows before
`setUser(null)` runs, so the user is cleared only on success. -/
def logout (s : AuthState) : Except Unit Unit → AuthState × Except Unit Unit
  | Except.ok _ => ({ s with user := none }, Except.ok ())
  | Except.error e => (s, Except.error e)

/-- The logged-in predicate every view derives from the store, e.g.
ProfileMenu's `if(!user)` test (src/App.jsx line 100): the user is present. -/
def isLoggedIn (s : AuthState) : Bool := s.user.isSome

/-! ## Product detail: addToCart in-flight flag (src/App.jsx lines 182-186) -/

/-- `.catch(()=>\x7b\x7d)` attached to the /cart/add promise: a rejection is
converted into a resolution, a resolution passes through. -/
def catchIgnore : Except Unit Unit → Except Unit Unit
  | Except.ok x => Except.ok x
  | Except.error _ => Except.ok ()

/-- The successive values of the `adding` flag during one `addToCart` run:
initial `false`, `setAdding(true)`, then — because the awaited promise has
`catchIgnore` attached and so always resolves — `setAdding(false)`. Had the
await rejected, the function would abort with the flag still `true`. -/
def addToCartAddingStates (r : Except Unit Unit) : List Bool :=
  match catchIgnore r with
  | Except.ok _ => [false, true, false]
  | Except.error _ => [false, true]

/-! ## Admin gate (AdminPanel, src/App.jsx lines 273-287) -/

/-- What AdminPanel renders. -/
inductive AdminRender where
  | accessDenied
  | panel
deriving DecidableEq

/-- `AdminPanel`: `if(!user || !user.is_admin)` render the access-denied
message, else the panel. The component body contains no effect, so the list
of requests it issues is empty on every path. -/
def adminPanelRender (user : Option User) : AdminRender × List String :=
  match user with
  | none => (AdminRender.accessDenied, [])
  | some u =>
    if !u.is_admin then (AdminRender.accessDenied, []) else (AdminRender.panel, [])

/-! ## Read-path fetch effects (fetch-then-render views) -/

/-- A category as rendered by the navigation and listing views: string id
(the hardcoded fallback uses string ids), name, child categories. -/
inductive Category where
  | mk (id : String) (name : String) (children : List Category)

/-- A product record: id, title, optional image, weight, price. -/
structure Product where
  id : Nat
  title : String
  image : Option String
  weight : Nat
  price : JSNum
deriving DecidableEq

/-- A cart line item: id, embedded product, quantity, line total. -/
structure CartItem where
  id : Nat
  product : Product
  qty : Nat
  total : JSNum
deriving DecidableEq

/-- A user-visible side effect a handler can emit: a blocking alert or a
programmatic navigation. -/
inductive UIAction where
  | alertMsg (msg : String)
  | navigateTo (path : String)
deriving DecidableEq

/-- One run of the uniform read-path effect
`axios.get(endpoint).then(r=>setS(r.data)).catch(()=>\x7b\x7d)` starting
from view state `init`: the resulting view state, the requests issued (one
GET, issued before the outcome is known, never retried), and the UI actions
emitted (the catch handler is empty, so none on either path). -/
def readFetchRun {α : Type} (endpoint : String) (init : α) (r : Except Unit α) :
    α × List String × List UIAction :=
  match r with
  | Except.ok d => (d, [endpoint], [])
  | Except.error _ => (init, [endpoint], [])

/-- Home's flat category fetch, src/App.jsx line 113: GET /categories into
initially-empty state. -/
def homeCategoriesFetchRun (r : Except Unit (List Category)) :
    List Category × List String × List UIAction :=
  readFetchRun "/categories" ([] : List Category) r

/-- Home's product fetch, src/App.jsx line 114: GET /products?limit=24 into
initially-empty state. -/
def homeProductsFetchRun (r : Except Unit (List Product)) :
    List Product × List String × List UIAction :=
  readFetchRun "/products?limit=24" ([] : List Product) r

/-- The category-products endpoint the CategoryPage effect hits for `id`. -/
def categoryProductsEndpoint (id : String) : String :=
  "/categories/" ++ id ++ "/products"

/-- CategoryPage's product fetch, src/App.jsx line 164: GET
/categories/:id/products into initially-empty state. -/
def categoryProductsFetchRun (id : String) (r : Except Unit (List Product)) :
    List Product × List String × List UIAction :=
  readFetchRun (categoryProductsEndpoint id) ([] : List Product) r

/-- ProductDetails' fetch, src/App.jsx line 179: GET /products/:id into
initially-`null` state. -/
def productDetailFetchRun (id : String) (r : Except Unit Product) :
    Option Product × List String × List UIAction :=
  readFetchRun ("/products/" ++ id) (none : Option Product) (r.map some)

/-- CartPage's fetch, src/App.jsx line 208: GET /cart, storing
`r.data.items` into initially-empty state. -/
def cartItemsFetchRun (r : Except Unit (List CartItem)) :
    List CartItem × List String × List UIAction :=
  readFetchRun "/cart" ([] : List CartItem) r

/-- CartIcon's fetch, src/App.jsx line 92: GET /cart/count, storing
`r.data.count` into initially-zero state. -/
def cartCountFetchRun (r : Except Unit Nat) :
    Nat × List String × List UIAction :=
  readFetchRun "/cart/count" (0 : Nat) r

/-- The hardcoded category list App's navigation fetch falls back to,
src/App.jsx line 297. -/
def fallbackCategories : List Category :=
  [Category.mk "1" "زیورآلات"
    [Category.mk "11" "گردنبند" [], Category.mk "12" "انگشتر" []],
   Category.mk "2" "سکه" []]

/-- App's navigation fetch, src/App.jsx lines 296-298: GET
/categories/navigation; unlike every other read path, its catch handler
calls `setCategories(fallbackCategories)` instead of leaving the state
alone. -/
def navigationFetchRun (_st : List Category) (r : Except Unit (List Category)) :
    List Category × List String × List UIAction :=
  match r with
  | Except.ok d => (d, ["/categories/navigation"], [])
  | Except.error _ => (fallbackCategories, ["/categories/navigation"], [])

/-! ## CategoryPage effect scheduling (useEffect with deps `[id]`) -/

/-- React's dependency test for `useEffect(..., [id])`: the effect runs on
the first render (`prev = none`) and whenever the dep changed. -/
def effectRuns : Option String → String → Bool
  | none, _ => true
  | some p, id => p != id

/-- The requests one render of CategoryPage issues, given the dep recorded
by the previous run (`none` on mount) and the current route param `id`:
one GET to the category-products endpoint when the effect runs, none
otherwise. -/
def categoryPageRequests (prev : Option String) (id : String) : List String :=
  if effectRuns prev id then [categoryProductsEndpoint id] else []

/-- A concrete logged-in user used by counterexamples and witnesses. -/
def sampleUser : User :=
  { id := 1, name := "Sara", email := "sara@example.com", is_admin := false }

/-! ## Theorems -/

/-- C1 counterexample: running `logout` from a logged-in session while the
POST /auth/logout call fails leaves the stored user present — the claim
that the user is absent after logout regardless of network failure is false
on the code (there is no catch; `setUser(null)` is skipped on rejection). -/
theorem logout_network_failure_keeps_user :
    (logout { user := some sampleUser, loading := false } (Except.error ())).1.user
      ≠ none := by
  simp [logout]

/-- C1 (amended): after `logout`, the stored user is absent when the network
call succeeds; when the call fails, the rejection propagates to the caller
and the store — user and loading flag alike — is unchanged. -/
theorem logout_contract (s : AuthState) :
    (logout s (Except.ok ())).1.user = none ∧
    (logout s (Except.ok ())).1.loading = s.loading ∧
    (logout s (Except.error ())).1 = s ∧
    (logout s (Except.error ())).2 = Except.error () := by
  simp [logout]

/-- C2: for every outcome of the startup session probe, the probed user (or
absence on failure) is what ends up stored, the loading flag ends false,
the final trace state agrees with `probeSession`, and along the trace the
loading flag transitions from true to false exactly once. -/
theorem probeSession_outcome (r : Option User) :
    (probeSession initialState r).user = r ∧
    (probeSession initialState r).loading = false ∧
    (probeSessionStates initialState r).getLastD initialState
      = probeSession initialState r ∧
    countTrueToFalse ((probeSessionStates initialState r).map AuthState.loading)
      = 1 := by
  cases r <;>
    simp [probeSession, probeSessionStates, initialState, countTrueToFalse]

/-- C3: `login` (and `register`, same contract) on success stores the
server-returned user, returns the full response payload, and leaves the
loading flag untouched; on failure it propagates the error and leaves the
whole prior state unchanged. -/
theorem login_register_contract (s : AuthState) (r : AuthResponse) :
    (login s (Except.ok r)).1.user = some r.user ∧
    (login s (Except.ok r)).1.loading = s.loading ∧
    (login s (Except.ok r)).2 = Except.ok r ∧
    (login s (Except.error ())).1 = s ∧
    (login s (Except.error ())).2 = Except.error () ∧
    (register s (Except.ok r)).1.user = some r.user ∧
    (register s (Except.ok r)).1.loading = s.loading ∧
    (register s (Except.ok r)).2 = Except.ok r ∧
    (register s (Except.error ())).1 = s ∧
    (register s (Except.error ())).2 = Except.error () := by
  simp [login, register]

/-- C4: `formatPrice` maps a numeric price to its fa-IR locale-grouped
digits followed by the currency label — e.g. 1234567 to "۱٬۲۳۴٬۵۶۷ تومان" —
and maps both null and undefined to the placeholder dash. -/
theorem formatPrice_spec :
    formatPrice (JSNum.num 1234567) = "۱٬۲۳۴٬۵۶۷ تومان" ∧
    formatPrice JSNum.null = "—" ∧
    formatPrice JSNum.undefined = "—" ∧
    ∀ n : Nat, formatPrice (JSNum.num n) = faIRFormat n ++ " تومان" := by
  refine ⟨by decide, rfl, rfl, fun n => rfl⟩

/-- C5: on every run of `addToCart`, whatever the outcome of the /cart/add
request, the in-flight flag's trace is false before, true exactly while the
request is outstanding, and false again after — the trigger control is
always re-enabled. -/
theorem addToCart_flag_trace (r : Except Unit Unit) :
    addToCartAddingStates r = [false, true, false] := by
  cases r <;> rfl

/-- C6: whenever the current user is absent or has a false admin flag,
AdminPanel renders the access-denied message and issues no request. -/
theorem adminPanel_denies_non_admin (u : Option User)
    (h : u = none ∨ ∃ x, u = some x ∧ x.is_admin = false) :
    adminPanelRender u = (AdminRender.accessDenied, []) := by
  rcases h with h | ⟨x, hx, hadm⟩
  · subst h; rfl
  · subst hx; simp [adminPanelRender, hadm]

/-- C6 witness: the denial theorem applied to the concrete non-admin user. -/
theorem adminPanel_denies_non_admin_witness :
    adminPanelRender (some sampleUser) = (AdminRender.accessDenied, []) :=
  adminPanel_denies_non_admin (some sampleUser) (Or.inr ⟨sampleUser, rfl, rfl⟩)

/-- C7 counterexample: when the navigation fetch fails, its data state does
not remain the empty default — the catch handler installs the hardcoded
fallback category list, so the claim is false for that read path. -/
theorem navigation_failure_not_default :
    (navigationFetchRun [] (Except.error ())).1 ≠ ([] : List Category) := by
  simp [navigationFetchRun, fallbackCategories]

/-- C7 (amended): every read-path fetch that fails is silent — no UI action
is emitted and exactly the one original request is issued, never a retry —
and the data state remains the empty/default value for the flat category
list, product list, category products, product detail, cart contents and
cart count; the navigation fetch alone replaces its state with the
hardcoded fallback category list instead. -/
theorem read_paths_silent_on_failure (id : String) :
    homeCategoriesFetchRun (Except.error ()) = ([], ["/categories"], []) ∧
    homeProductsFetchRun (Except.error ()) = ([], ["/products?limit=24"], []) ∧
    categoryProductsFetchRun id (Except.error ())
      = ([], [categoryProductsEndpoint id], []) ∧
    productDetailFetchRun id (Except.error ())
      = (none, ["/products/" ++ id], []) ∧
    cartItemsFetchRun (Except.error ()) = ([], ["/cart"], []) ∧
    cartCountFetchRun (Except.error ()) = (0, ["/cart/count"], []) ∧
    navigationFetchRun [] (Except.error ())
      = (fallbackCategories, ["/categories/navigation"], []) := by
  simp [homeCategoriesFetchRun, homeProductsFetchRun, categoryProductsFetchRun,
    productDetailFetchRun, cartItemsFetchRun, cartCountFetchRun,
    navigationFetchRun, readFetchRun, Except.map]

/-- C8: after any session-store operation — probe, login, register, logout —
the stored user is absent exactly when the derived logged-in predicate is
false: the two can never disagree. -/
theorem session_user_loggedIn_consistent (s : AuthState) (ru : Option User)
    (ra rb : Except Unit AuthResponse) (rl : Except Unit Unit) :
    ((probeSession s ru).user = none ↔ isLoggedIn (probeSession s ru) = false) ∧
    ((login s ra).1.user = none ↔ isLoggedIn (login s ra).1 = false) ∧
    ((register s rb).1.user = none ↔ isLoggedIn (register s rb).1 = false) ∧
    ((logout s rl).1.user = none ↔ isLoggedIn (logout s rl).1 = false) := by
  have key : ∀ t : AuthState, t.user = none ↔ isLoggedIn t = false := by
    intro t
    cases h : t.user <;> simp [isLoggedIn, h]
  exact ⟨key _, key _, key _, key _⟩

/-- C9: mounting CategoryPage with a category id issues exactly one request
to the category-products endpoint for that id; a change of the id parameter
issues exactly one request for the new id; a re-render with the same id
issues none. -/
theorem categoryPage_one_request_per_id (id prev : String) :
    categoryPageRequests none id = [categoryProductsEndpoint id] ∧
    (prev ≠ id →
      categoryPageRequests (some prev) id = [categoryProductsEndpoint id]) ∧
    categoryPageRequests (some id) id = [] := by
  refine ⟨rfl, fun h => ?_, ?_⟩
  · simp [categoryPageRequests, effectRuns, h]
  · simp [categoryPageRequests, effectRuns]

/-- C9 witness: the request theorem at id 11 changing to id 12. -/
theorem categoryPage_one_request_per_id_witness :
    ("11" : String) ≠ "12" ∧
    categoryPageRequests (some "11") "12" = [categoryProductsEndpoint "12"] :=
  ⟨by decide, (categoryPage_one_request_per_id "12" "11").2.1 (by decide)⟩

/-- C10: a zero price is formatted, not treated as absent: `formatPrice 0`
is "۰ تومان", never the dash; and the dash arises only from null or
undefined inputs. -/
theorem formatPrice_zero_present :
    formatPrice (JSNum.num 0) = "۰ تومان" ∧
    formatPrice (JSNum.num 0) ≠ "—" ∧
    ∀ v : JSNum, formatPrice v = "—" → v = JSNum.null ∨ v = JSNum.undefined := by
  refine ⟨by decide, by decide, ?_⟩
  intro v h
  cases v with
  | null => exact Or.inl rfl
  | undefined => exact Or.inr rfl
  | num n =>
    exfalso
    have hl := congrArg String.length h
    have h6 : (" تومان" : String).length = 6 := rfl
    have h1 : ("—" : String).length = 1 := rfl
    rw [formatPrice, String.length_append, h6, h1] at hl
    omega

end WinTala
